import Mathlib

/-!
Shallow embedding of the packer-builder-macstadium-orka provisioning workflow
(Go sources: the stepOrkaCreate file and builder/orka/step_create_image.go).

Modelling conventions:
- Every HTTP call the workflow performs is one constructor of ApiRequest,
  carrying exactly the request-body fields the Go code marshals.
- The network is an oracle of type Net: for a request it either returns a
  transport error (Except.error with the error text, the case in which Go's
  client.Do returns a non-nil error) or an HttpResponse.  The response record
  carries the status code and every body field any call parses; unmarshalling
  into a typed Go struct leaves absent fields at their zero value, so the
  fields default to the empty string.
- The multistep state bag is a record of Option fields.  Go reads entries with
  unchecked type assertions such as the string assertion on the token entry;
  on a missing key the assertion panics.  A panic is the GoResult.panicked
  constructor, which records the requests issued and errors reported before
  the crash.
- The ui error sink is modelled as a list of ErrEvent values, one constructor
  per distinct error shape in the source; ui.Say chatter is not modelled.
  A Put of an error value into the bag reuses ErrEvent.
-/

namespace Orka

/-- Configuration supplied to the run (the Config struct fields the two step
files read). -/
structure Config where
  OrkaEndpoint : String
  OrkaUser : String
  OrkaPassword : String
  SourceImage : String
  ImageName : String
  OrkaVMBuilderName : String
  OrkaVMCPUCore : Nat
  ImagePrecopy : Bool
  NoCreateImage : Bool
  NoDeleteVM : Bool
deriving DecidableEq

/-- One HTTP request to the Orka API, with the body fields the Go code
marshals for that call. -/
inductive ApiRequest where
  /-- POST token with TokenLoginRequest holding user and password. -/
  | tokenLogin (user password : String)
  /-- POST resources/image/copy with ImageCopyRequest. -/
  | imageCopy (sourceImage destImage : String)
  /-- POST resources/vm/create with VMCreateRequest holding OrkaVMName,
  OrkaVMImage, OrkaImage, OrkaCPUCore and VCPUCount. -/
  | vmCreate (vmName vmImage orkaImage : String) (cpuCore vcpuCount : Nat)
  /-- POST resources/vm/deploy with VMDeployRequest holding the name. -/
  | vmDeploy (vmName : String)
  /-- POST resources/image/commit with ImageCommitRequest holding the vm id. -/
  | imageCommit (vmId : String)
  /-- POST resources/image/save with ImageSaveRequest. -/
  | imageSave (vmId imageName : String)
  /-- DELETE resources/image/delete with ImageDeleteRequest. -/
  | imageDelete (imageName : String)
  /-- DELETE resources/vm/purge with VMPurgeRequest holding the name. -/
  | vmPurge (vmName : String)
deriving DecidableEq

/-- An HTTP response: status code plus every body field any step parses.
Unmarshalling leaves fields that are absent from the body at Go's zero
value, hence the empty-string defaults. -/
structure HttpResponse where
  status : Nat
  token : String := ""
  vmId : String := ""
  ip : String := ""
  sshPort : String := ""
deriving DecidableEq

/-- The network oracle: what one run of client.Do returns for a request.
Except.error e is a transport failure (client.Do returned a non-nil error
with text e); Except.ok is a response that arrived. -/
abbrev Net : Type := ApiRequest → Except String HttpResponse

/-- An error reported to the ui error sink or stored under the error key,
one constructor per error shape in the source. -/
inductive ErrEvent where
  /-- OrkaAPIRequestErrorMessage with the underlying transport error text. -/
  | requestError (detail : String)
  /-- OrkaAPIResponseErrorMessage with the response status. -/
  | responseError (status : Nat)
  /-- The image-copy branch message Error from API with the status. -/
  | copyApiError (status : Nat)
  /-- The deploy branch error Error from API while deploying Orka VM
  (stored in the state bag only, never sent to the ui error sink). -/
  | deployError (status : Nat)
  /-- precopyImageDelete message Image could not be deleted. -/
  | imageDeleteError (status : Nat)
  /-- step_create_image commit branch message Error committing image. -/
  | commitError (status : Nat)
deriving DecidableEq

/-- The multistep state bag entries the two step files touch.  A none field
is a key that was never Put; reading it with an unchecked type assertion
panics. -/
structure StateBag where
  config : Option Config := none
  token : Option String := none
  vmid : Option String := none
  ssh_port : Option Int := none
  ssh_host : Option String := none
  error : Option ErrEvent := none
deriving DecidableEq

/-- multistep.StepAction values returned by Run. -/
inductive StepAction where
  | actionContinue
  | actionHalt
deriving DecidableEq

/-- Outcome of a Go function that can panic: panicked records the requests
issued and the errors reported before the crash. -/
inductive GoResult (α : Type) where
  | panicked (requests : List ApiRequest) (errors : List ErrEvent)
  | ok (val : α)
deriving DecidableEq

/-- Decimal digit accumulator used by strconvAtoi: consumes the remaining
characters, failing on the first non-digit. -/
def atoiDigits : List Char → Nat → Option Nat
  | [], acc => some acc
  | c :: cs, acc =>
    if c.isDigit then atoiDigits cs (acc * 10 + (c.toNat - 48)) else none

/-- Go's strconv.Atoi with the error ignored, as the source does with
sshPort: an optional sign followed by decimal digits; on a parse failure
Atoi returns 0 together with an error, and the code uses that zero. -/
def strconvAtoi (s : String) : Int :=
  match s.data with
  | [] => 0
  | '-' :: cs =>
    match cs, atoiDigits cs 0 with
    | [], _ => 0
    | _, some n => -(n : Int)
    | _, none => 0
  | '+' :: cs =>
    match cs, atoiDigits cs 0 with
    | [], _ => 0
    | _, some n => (n : Int)
    | _, none => 0
  | cs =>
    match atoiDigits cs 0 with
    | some n => (n : Int)
    | none => 0

/-- Result of stepOrkaCreate.Run: the StepAction, the updated state bag, the
step struct's failed and precopyFailed fields, the requests issued and the
errors reported to the ui error sink. -/
structure RunOut where
  action : StepAction
  bag : StateBag
  failed : Bool
  precopyFailed : Bool
  requests : List ApiRequest
  errors : List ErrEvent
deriving DecidableEq

/-- stepOrkaCreate.createOrkaToken: a single POST to the token endpoint; a
transport error is returned to the caller; otherwise the token field of the
response body is returned with NO status check (parsed best-effort). -/
def createOrkaToken (net : Net) (config : Config) : Except String String :=
  match net (ApiRequest.tokenLogin config.OrkaUser config.OrkaPassword) with
  | Except.error err => Except.error err
  | Except.ok resp => Except.ok resp.token

/-- The tail of stepOrkaCreate.Run from the CREATE THE BUILDER VM
CONFIGURATION comment on: vm create, then vm deploy.  reqs0 is the trace of
requests already issued (login and, possibly, the image copy); bag already
holds the token. -/
def runCreateDeploy (net : Net) (config : Config) (bag : StateBag)
    (actualImage : String) (reqs0 : List ApiRequest) : GoResult RunOut :=
  let createReq := ApiRequest.vmCreate config.OrkaVMBuilderName actualImage
      config.OrkaVMBuilderName config.OrkaVMCPUCore config.OrkaVMCPUCore
  match net createReq with
  | Except.error err =>
      -- transport error on vm create: error reported, then ActionHalt;
      -- the source sets neither the failed field nor the bag's error entry
      GoResult.ok
        { action := StepAction.actionHalt, bag := bag,
          failed := false, precopyFailed := false,
          requests := reqs0 ++ [createReq],
          errors := [ErrEvent.requestError err] }
  | Except.ok createResp =>
    if createResp.status ≠ 201 then
      GoResult.ok
        { action := StepAction.actionHalt,
          bag := { bag with error := some (ErrEvent.responseError createResp.status) },
          failed := true, precopyFailed := false,
          requests := reqs0 ++ [createReq],
          errors := [ErrEvent.responseError createResp.status] }
    else
      let deployReq := ApiRequest.vmDeploy config.OrkaVMBuilderName
      match net deployReq with
      | Except.error _ =>
          -- the source never checks the deploy client.Do error: it reads
          -- the body of the nil response and panics
          GoResult.panicked (reqs0 ++ [createReq, deployReq]) []
      | Except.ok deployResp =>
        if deployResp.status ≠ 200 then
          GoResult.ok
            { action := StepAction.actionHalt,
              bag := { bag with error := some (ErrEvent.deployError deployResp.status) },
              failed := true, precopyFailed := false,
              requests := reqs0 ++ [createReq, deployReq],
              errors := [] }
        else
          GoResult.ok
            { action := StepAction.actionContinue,
              bag := { bag with
                       vmid := some deployResp.vmId,
                       ssh_port := some (strconvAtoi deployResp.sshPort),
                       ssh_host := some deployResp.ip },
              failed := false, precopyFailed := false,
              requests := reqs0 ++ [createReq, deployReq],
              errors := [] }

/-- stepOrkaCreate.Run: login, optional image pre-copy, vm create,
vm deploy, publish the vm id and the ssh coordinates. -/
def stepOrkaCreateRun (net : Net) (state : StateBag) : GoResult RunOut :=
  match state.config with
  | none => GoResult.panicked [] []
  | some config =>
    let loginReq := ApiRequest.tokenLogin config.OrkaUser config.OrkaPassword
    match createOrkaToken net config with
    | Except.error err =>
        GoResult.ok
          { action := StepAction.actionHalt,
            bag := { state with error := some (ErrEvent.requestError err) },
            failed := true, precopyFailed := false,
            requests := [loginReq],
            errors := [ErrEvent.requestError err] }
    | Except.ok token =>
      -- the token is Put into the bag before any further call
      let bag1 := { state with token := some token }
      if config.ImagePrecopy ∧ ¬ config.NoCreateImage then
        let copyReq := ApiRequest.imageCopy config.SourceImage config.ImageName
        match net copyReq with
        | Except.error err =>
            -- transport error on image copy sets failed AND precopyFailed
            GoResult.ok
              { action := StepAction.actionHalt,
                bag := { bag1 with error := some (ErrEvent.requestError err) },
                failed := true, precopyFailed := true,
                requests := [loginReq, copyReq],
                errors := [ErrEvent.requestError err] }
        | Except.ok copyResp =>
          if copyResp.status ≠ 200 then
            -- non-200 copy status sets failed only, precopyFailed stays false
            GoResult.ok
              { action := StepAction.actionHalt,
                bag := { bag1 with error := some (ErrEvent.copyApiError copyResp.status) },
                failed := true, precopyFailed := false,
                requests := [loginReq, copyReq],
                errors := [ErrEvent.copyApiError copyResp.status] }
          else
            -- the pre-copied destination image becomes the actual image
            runCreateDeploy net config bag1 config.ImageName [loginReq, copyReq]
      else
        runCreateDeploy net config bag1 config.SourceImage [loginReq]

/-- Result of stepOrkaCreate.precopyImageDelete: the request issued, the
errors reported, the value Put under the error key (transport failure only)
and the returned Go error (none means the function returned nil). -/
structure DeleteOut where
  requests : List ApiRequest
  errors : List ErrEvent
  bagError : Option ErrEvent
  result : Option ErrEvent
deriving DecidableEq

/-- stepOrkaCreate.precopyImageDelete: one DELETE to the image delete
endpoint.  The request body carries config.OrkaVMBuilderName as the
imageName field (the builder VM name, not config.ImageName).  Called from
Cleanup after the config, ui and token assertions there succeeded, so its
own assertions on the same keys cannot panic. -/
def precopyImageDelete (net : Net) (config : Config) : DeleteOut :=
  let req := ApiRequest.imageDelete config.OrkaVMBuilderName
  match net req with
  | Except.error err =>
      { requests := [req], errors := [ErrEvent.requestError err],
        bagError := some (ErrEvent.requestError err),
        result := some (ErrEvent.requestError err) }
  | Except.ok resp =>
    if resp.status ≠ 200 then
      { requests := [req], errors := [ErrEvent.imageDeleteError resp.status],
        bagError := none,
        result := some (ErrEvent.imageDeleteError resp.status) }
    else
      { requests := [req], errors := [], bagError := none, result := none }

/-- Outcome of a Cleanup invocation: requests issued, errors reported, and
the state bag afterwards. -/
structure CleanupOut where
  requests : List ApiRequest
  errors : List ErrEvent
  bag : StateBag
deriving DecidableEq

/-- stepOrkaCreate.Cleanup.  failed is the step struct's failed field.  The
config, ui and token entries are read with unchecked type assertions before
any branch; a missing token panics even when NoDeleteVM is set.  On the
success path the purge transport-error branch reports and stores the error
but does not return, so the following status check dereferences the nil
response and panics. -/
def stepOrkaCreateCleanup (net : Net) (failed : Bool) (state : StateBag) :
    GoResult CleanupOut :=
  match state.config with
  | none => GoResult.panicked [] []
  | some config =>
  match state.token with
  | none => GoResult.panicked [] []
  | some _ =>
  if config.NoDeleteVM then
    -- only Say messages; no deletion performed
    GoResult.ok { requests := [], errors := [], bag := state }
  else if failed then
    if config.ImagePrecopy then
      let del := precopyImageDelete net config
      -- whether or not the delete failed, Cleanup only Says and returns
      match del.bagError with
      | some e =>
          GoResult.ok
            { requests := del.requests, errors := del.errors,
              bag := { state with error := some e } }
      | none =>
          GoResult.ok
            { requests := del.requests, errors := del.errors, bag := state }
    else
      GoResult.ok { requests := [], errors := [], bag := state }
  else
    let purgeReq := ApiRequest.vmPurge config.OrkaVMBuilderName
    match net purgeReq with
    | Except.error err =>
        -- reported and stored, but no return: the status check that follows
        -- dereferences the nil response and panics
        GoResult.panicked [purgeReq] [ErrEvent.requestError err]
    | Except.ok resp =>
      if resp.status ≠ 200 then
        GoResult.ok
          { requests := [purgeReq],
            errors := [ErrEvent.responseError resp.status], bag := state }
      else
        GoResult.ok { requests := [purgeReq], errors := [], bag := state }

/-- Requests issued by a Cleanup invocation, whether or not it panicked. -/
def cleanupRequests (r : GoResult CleanupOut) : List ApiRequest :=
  match r with
  | GoResult.panicked reqs _ => reqs
  | GoResult.ok out => out.requests

/-- Requests issued by a Run invocation, whether or not it panicked. -/
def runRequests (r : GoResult RunOut) : List ApiRequest :=
  match r with
  | GoResult.panicked reqs _ => reqs
  | GoResult.ok out => out.requests

/-- Result of stepCreateImage.Run. -/
structure CreateImageOut where
  action : StepAction
  requests : List ApiRequest
  errors : List ErrEvent
deriving DecidableEq

/-- stepCreateImage.Run: no-op when NoCreateImage; otherwise commit the
pre-copied image (ImagePrecopy) or save a new one.  A non-200 commit status
only reports and the step continues; a non-200 save status reports and
halts. -/
def stepCreateImageRun (net : Net) (state : StateBag) :
    GoResult CreateImageOut :=
  match state.config with
  | none => GoResult.panicked [] []
  | some config =>
  match state.vmid with
  | none => GoResult.panicked [] []
  | some vmid =>
  match state.token with
  | none => GoResult.panicked [] []
  | some _ =>
  if config.NoCreateImage then
    GoResult.ok
      { action := StepAction.actionContinue, requests := [], errors := [] }
  else if config.ImagePrecopy then
    let req := ApiRequest.imageCommit vmid
    match net req with
    | Except.error err =>
        GoResult.ok
          { action := StepAction.actionHalt, requests := [req],
            errors := [ErrEvent.requestError err] }
    | Except.ok resp =>
      if resp.status ≠ 200 then
        -- error reported, but the commit branch does not halt
        GoResult.ok
          { action := StepAction.actionContinue, requests := [req],
            errors := [ErrEvent.commitError resp.status] }
      else
        GoResult.ok
          { action := StepAction.actionContinue, requests := [req],
            errors := [] }
  else
    let req := ApiRequest.imageSave vmid config.ImageName
    match net req with
    | Except.error err =>
        GoResult.ok
          { action := StepAction.actionHalt, requests := [req],
            errors := [ErrEvent.requestError err] }
    | Except.ok resp =>
      if resp.status ≠ 200 then
        GoResult.ok
          { action := StepAction.actionHalt, requests := [req],
            errors := [ErrEvent.responseError resp.status] }
      else
        GoResult.ok
          { action := StepAction.actionContinue, requests := [req],
            errors := [] }

/-- stepCreateImage.Cleanup: reads ui and vmid (unchecked assertions),
returns early when vmid is empty or when neither cancelled nor halted is in
the bag, and otherwise only Says; it never issues a request or reports an
error.  cancelled and halted model the presence of the multistep
StateCancelled and StateHalted keys. -/
def stepCreateImageCleanup (state : StateBag) (cancelled halted : Bool) :
    GoResult CleanupOut :=
  match state.vmid with
  | none => GoResult.panicked [] []
  | some vmid =>
  if vmid = "" then
    GoResult.ok { requests := [], errors := [], bag := state }
  else if ¬ cancelled ∧ ¬ halted then
    GoResult.ok { requests := [], errors := [], bag := state }
  else
    GoResult.ok { requests := [], errors := [], bag := state }

/-! Concrete configurations, state bags and network oracles used to
evaluate the workflow on specific runs. -/

/-- A concrete configuration: pre-copy disabled, deletion enabled.  The
destination image name and the builder VM name are deliberately distinct. -/
def cfgBase : Config :=
  { OrkaEndpoint := "http://10.221.188.100", OrkaUser := "user",
    OrkaPassword := "pw", SourceImage := "src.img", ImageName := "dest-image",
    OrkaVMBuilderName := "builder-vm", OrkaVMCPUCore := 3,
    ImagePrecopy := false, NoCreateImage := false, NoDeleteVM := false }

/-- cfgBase with image pre-copy enabled. -/
def cfgPre : Config := { cfgBase with ImagePrecopy := true }

/-- cfgBase with deletion disabled. -/
def cfgNDV : Config := { cfgBase with NoDeleteVM := true }

/-- State bag holding only the configuration, as at the start of Run. -/
def bagStart : StateBag := { config := some cfgBase }

/-- State bag at the start of Run with pre-copy enabled. -/
def bagStartPre : StateBag := { config := some cfgPre }

/-- State bag after a successful login: configuration and token present. -/
def bagTok : StateBag := { config := some cfgBase, token := some "tok" }

/-- State bag with pre-copy enabled, after a successful login. -/
def bagTokPre : StateBag := { config := some cfgPre, token := some "tok" }

/-- State bag with vmid and token present, pre-copy disabled, as when the
Create Image step runs. -/
def bagImg : StateBag :=
  { config := some cfgBase, vmid := some "vm-1", token := some "tok" }

/-- State bag with vmid and token present, pre-copy enabled. -/
def bagImgPre : StateBag :=
  { config := some cfgPre, vmid := some "vm-1", token := some "tok" }

/-- State bag with deletion disabled and a token present. -/
def bagNDV : StateBag := { config := some cfgNDV, token := some "tok" }

/-- State bag with deletion disabled and no token stored. -/
def bagNDVnoTok : StateBag := { config := some cfgNDV }

/-- Network on which every call succeeds (200, create 201) and the deploy
body carries vm-1, ip 10.0.0.5 and ssh port 2222. -/
def netHappy : Net := fun r =>
  match r with
  | ApiRequest.tokenLogin _ _ => Except.ok { status := 200, token := "tok" }
  | ApiRequest.vmCreate _ _ _ _ _ => Except.ok { status := 201 }
  | ApiRequest.vmDeploy _ =>
      Except.ok { status := 200, vmId := "vm-1", ip := "10.0.0.5",
                  sshPort := "2222" }
  | _ => Except.ok { status := 200 }

/-- Network on which every call returns 200 with an empty body. -/
def netAll200 : Net := fun _ => Except.ok { status := 200 }

/-- Network on which every call returns status 500. -/
def net500 : Net := fun _ => Except.ok { status := 500 }

/-- Network on which every call fails at the transport level. -/
def netDown : Net := fun _ => Except.error "connection refused"

/-- Network on which the purge call fails at the transport level. -/
def netPurgeDown : Net := fun r =>
  match r with
  | ApiRequest.vmPurge _ => Except.error "connection refused"
  | _ => Except.ok { status := 200 }

/-- Network on which the deploy call fails at the transport level. -/
def netDeployDown : Net := fun r =>
  match r with
  | ApiRequest.tokenLogin _ _ => Except.ok { status := 200, token := "tok" }
  | ApiRequest.vmCreate _ _ _ _ _ => Except.ok { status := 201 }
  | ApiRequest.vmDeploy _ => Except.error "connection refused"
  | _ => Except.ok { status := 200 }

/-- Network on which the image copy returns status 500. -/
def netCopy500 : Net := fun r =>
  match r with
  | ApiRequest.tokenLogin _ _ => Except.ok { status := 200, token := "tok" }
  | ApiRequest.imageCopy _ _ => Except.ok { status := 500 }
  | _ => Except.ok { status := 200 }

/-- Network on which the image copy fails at the transport level. -/
def netCopyDown : Net := fun r =>
  match r with
  | ApiRequest.tokenLogin _ _ => Except.ok { status := 200, token := "tok" }
  | ApiRequest.imageCopy _ _ => Except.error "connection refused"
  | _ => Except.ok { status := 200 }

/-- Network on which the login responds with status 500 (a non-2xx status)
yet with a parsable token, and everything afterwards succeeds. -/
def netLogin500 : Net := fun r =>
  match r with
  | ApiRequest.tokenLogin _ _ => Except.ok { status := 500, token := "tok" }
  | ApiRequest.vmCreate _ _ _ _ _ => Except.ok { status := 201 }
  | ApiRequest.vmDeploy _ =>
      Except.ok { status := 200, vmId := "vm-1", ip := "10.0.0.5",
                  sshPort := "2222" }
  | _ => Except.ok { status := 200 }

/-- Network on which the deploy call returns 200 with an empty body, so
the parsed vmId, ip and sshPort are all the empty string. -/
def netDeployEmpty : Net := fun r =>
  match r with
  | ApiRequest.tokenLogin _ _ => Except.ok { status := 200, token := "tok" }
  | ApiRequest.vmCreate _ _ _ _ _ => Except.ok { status := 201 }
  | _ => Except.ok { status := 200 }

/-- Run outcome on netHappy from bagStart: the fully successful path. -/
def outHappy : RunOut :=
  { action := StepAction.actionContinue,
    bag := { config := some cfgBase, token := some "tok", vmid := some "vm-1",
             ssh_port := some 2222, ssh_host := some "10.0.0.5" },
    failed := false, precopyFailed := false,
    requests := [ApiRequest.tokenLogin "user" "pw",
      ApiRequest.vmCreate "builder-vm" "src.img" "builder-vm" 3 3,
      ApiRequest.vmDeploy "builder-vm"],
    errors := [] }

/-- Run outcome on netCopy500 from bagStartPre: halted, failed set,
precopyFailed NOT set. -/
def outCopy500 : RunOut :=
  { action := StepAction.actionHalt,
    bag := { config := some cfgPre, token := some "tok",
             error := some (ErrEvent.copyApiError 500) },
    failed := true, precopyFailed := false,
    requests := [ApiRequest.tokenLogin "user" "pw",
      ApiRequest.imageCopy "src.img" "dest-image"],
    errors := [ErrEvent.copyApiError 500] }

/-- Run outcome on netCopyDown from bagStartPre: halted with both failed
and precopyFailed set. -/
def outCopyDown : RunOut :=
  { action := StepAction.actionHalt,
    bag := { config := some cfgPre, token := some "tok",
             error := some (ErrEvent.requestError "connection refused") },
    failed := true, precopyFailed := true,
    requests := [ApiRequest.tokenLogin "user" "pw",
      ApiRequest.imageCopy "src.img" "dest-image"],
    errors := [ErrEvent.requestError "connection refused"] }

/-- Run outcome on netDown from bagStart: the login transport error halts
the run with failed set and the error recorded. -/
def outLoginDown : RunOut :=
  { action := StepAction.actionHalt,
    bag := { config := some cfgBase,
             error := some (ErrEvent.requestError "connection refused") },
    failed := true, precopyFailed := false,
    requests := [ApiRequest.tokenLogin "user" "pw"],
    errors := [ErrEvent.requestError "connection refused"] }

/-- Run outcome on netLogin500 from bagStart: the non-2xx login status is
never inspected, the run continues to a successful deploy. -/
def outLogin500 : RunOut :=
  { action := StepAction.actionContinue,
    bag := { config := some cfgBase, token := some "tok", vmid := some "vm-1",
             ssh_port := some 2222, ssh_host := some "10.0.0.5" },
    failed := false, precopyFailed := false,
    requests := [ApiRequest.tokenLogin "user" "pw",
      ApiRequest.vmCreate "builder-vm" "src.img" "builder-vm" 3 3,
      ApiRequest.vmDeploy "builder-vm"],
    errors := [] }

/-- Run outcome on netDeployEmpty from bagStart: deploy returned 200 with
an empty body, so the stored vmid is the empty string. -/
def outDeployEmpty : RunOut :=
  { action := StepAction.actionContinue,
    bag := { config := some cfgBase, token := some "tok", vmid := some "",
             ssh_port := some 0, ssh_host := some "" },
    failed := false, precopyFailed := false,
    requests := [ApiRequest.tokenLogin "user" "pw",
      ApiRequest.vmCreate "builder-vm" "src.img" "builder-vm" 3 3,
      ApiRequest.vmDeploy "builder-vm"],
    errors := [] }


/-! Helper lemmas about the create-and-deploy tail shared by several of the
claim theorems below. -/

/-- The create-and-deploy tail always issues at least one further request
after the prefix reqs0, and never issues another login. -/
lemma runCreateDeploy_requests (net : Net) (cfg : Config) (bag : StateBag)
    (img : String) (reqs0 : List ApiRequest) :
    ∃ tail, runRequests (runCreateDeploy net cfg bag img reqs0) = reqs0 ++ tail ∧
      tail ≠ [] ∧ ∀ u p, ApiRequest.tokenLogin u p ∉ tail := by
  simp only [runCreateDeploy]
  cases h1 : net (ApiRequest.vmCreate cfg.OrkaVMBuilderName img
      cfg.OrkaVMBuilderName cfg.OrkaVMCPUCore cfg.OrkaVMCPUCore) with
  | error e =>
      refine ⟨_, rfl, by simp, ?_⟩
      intro u p
      simp [runRequests]
  | ok resp =>
      by_cases h2 : resp.status = 201
      · simp only [h2, ne_eq, not_true_eq_false, if_false, ite_false]
        cases h3 : net (ApiRequest.vmDeploy cfg.OrkaVMBuilderName) with
        | error e =>
            refine ⟨_, rfl, by simp, ?_⟩
            intro u p
            simp [runRequests]
        | ok dresp =>
            by_cases h4 : dresp.status = 200
            · simp only [h4, ne_eq, not_true_eq_false, ite_false]
              refine ⟨_, rfl, by simp, ?_⟩
              intro u p
              simp [runRequests]
            · simp only [ne_eq, h4, not_false_eq_true, ite_true]
              refine ⟨_, rfl, by simp, ?_⟩
              intro u p
              simp [runRequests]
      · simp only [ne_eq, h2, not_false_eq_true, ite_true]
        refine ⟨_, rfl, by simp, ?_⟩
        intro u p
        simp [runRequests]

/-- Shape of an ok outcome of the create-and-deploy tail: config and token
are never touched, a halt leaves vmid alone, and a continue records the
deploy response body fields after a 200 deploy status. -/
lemma runCreateDeploy_ok (net : Net) (cfg : Config) (bag : StateBag)
    (img : String) (reqs0 : List ApiRequest) (out : RunOut)
    (h : runCreateDeploy net cfg bag img reqs0 = GoResult.ok out) :
    out.bag.config = bag.config ∧ out.bag.token = bag.token ∧
    (out.action = StepAction.actionHalt → out.bag.vmid = bag.vmid) ∧
    (out.action = StepAction.actionContinue →
      ∀ resp, net (ApiRequest.vmDeploy cfg.OrkaVMBuilderName) = Except.ok resp →
        out.bag.vmid = some resp.vmId ∧ out.bag.ssh_host = some resp.ip ∧
        out.bag.ssh_port = some (strconvAtoi resp.sshPort) ∧
        resp.status = 200) := by
  simp only [runCreateDeploy] at h
  cases h1 : net (ApiRequest.vmCreate cfg.OrkaVMBuilderName img
      cfg.OrkaVMBuilderName cfg.OrkaVMCPUCore cfg.OrkaVMCPUCore) with
  | error e =>
      rw [h1] at h
      cases h
      exact ⟨rfl, rfl, fun _ => rfl, fun hc => by simp at hc⟩
  | ok resp =>
      rw [h1] at h
      by_cases h2 : resp.status = 201
      · simp only [h2, ne_eq, not_true_eq_false, ite_false] at h
        cases h3 : net (ApiRequest.vmDeploy cfg.OrkaVMBuilderName) with
        | error e =>
            rw [h3] at h
            cases h
        | ok dresp =>
            rw [h3] at h
            by_cases h4 : dresp.status = 200
            · simp only [h4, ne_eq, not_true_eq_false, ite_false] at h
              cases h
              refine ⟨rfl, rfl, fun hc => by simp at hc, fun _ resp2 hr2 => ?_⟩
              cases Except.ok.inj hr2
              exact ⟨rfl, rfl, rfl, h4⟩
            · simp only [ne_eq, h4, not_false_eq_true, ite_true] at h
              cases h
              refine ⟨rfl, rfl, fun _ => rfl, fun hc => by simp at hc⟩
      · simp only [ne_eq, h2, not_false_eq_true, ite_true] at h
        cases h
        refine ⟨rfl, rfl, fun _ => rfl, fun hc => by simp at hc⟩

/-- Shape of an ok outcome of stepOrkaCreate.Run: the config entry is never
touched, a halt leaves vmid alone, and a continue records the deploy
response body fields after a 200 deploy status. -/
lemma stepOrkaCreateRun_ok (net : Net) (cfg : Config) (state : StateBag)
    (out : RunOut) (hcfg : state.config = some cfg)
    (h : stepOrkaCreateRun net state = GoResult.ok out) :
    out.bag.config = state.config ∧
    (out.action = StepAction.actionHalt → out.bag.vmid = state.vmid) ∧
    (out.action = StepAction.actionContinue →
      ∀ resp, net (ApiRequest.vmDeploy cfg.OrkaVMBuilderName) = Except.ok resp →
        out.bag.vmid = some resp.vmId ∧ out.bag.ssh_host = some resp.ip ∧
        out.bag.ssh_port = some (strconvAtoi resp.sshPort) ∧
        resp.status = 200) := by
  simp only [stepOrkaCreateRun, hcfg, createOrkaToken] at h
  cases h1 : net (ApiRequest.tokenLogin cfg.OrkaUser cfg.OrkaPassword) with
  | error e =>
      simp only [h1] at h
      cases h
      exact ⟨hcfg.symm, fun _ => rfl, fun hc => by simp at hc⟩
  | ok r =>
      simp only [h1] at h
      by_cases hp : (cfg.ImagePrecopy = true ∧ ¬ cfg.NoCreateImage = true)
      · rw [if_pos hp] at h
        cases h2 : net (ApiRequest.imageCopy cfg.SourceImage cfg.ImageName) with
        | error e =>
            simp only [h2] at h
            cases h
            exact ⟨hcfg.symm, fun _ => rfl, fun hc => by simp at hc⟩
        | ok cresp =>
            simp only [h2] at h
            by_cases h3 : cresp.status = 200
            · rw [if_neg (by simp [h3])] at h
              have hshape := runCreateDeploy_ok net cfg
                { state with config := some cfg, token := some r.token }
                cfg.ImageName _ out h
              refine ⟨?_, fun ha => hshape.2.2.1 ha, hshape.2.2.2⟩
              rw [hcfg]
              exact hshape.1
            · rw [if_pos (by simpa using h3)] at h
              cases h
              exact ⟨hcfg.symm, fun _ => rfl, fun hc => by simp at hc⟩
      · rw [if_neg hp] at h
        have hshape := runCreateDeploy_ok net cfg
          { state with config := some cfg, token := some r.token }
          cfg.SourceImage _ out h
        refine ⟨?_, fun ha => hshape.2.2.1 ha, hshape.2.2.2⟩
        rw [hcfg]
        exact hshape.1

/-! Claim theorems. -/

/-- C1: on a failed run with pre-copy configured (and deletion enabled),
cleanup issues exactly one image-delete request and no purge, but the
imageName field it sends is the builder VM name, not the pre-copied
destination image name the claim (and the code's own progress message)
speaks of. -/
theorem c1_image_delete_uses_builder_vm_name :
    stepOrkaCreateCleanup netAll200 true bagTokPre = GoResult.ok
      { requests := [ApiRequest.imageDelete "builder-vm"], errors := [],
        bag := bagTokPre }
    ∧ cfgPre.ImageName = "dest-image"
    ∧ cfgPre.OrkaVMBuilderName = "builder-vm"
    ∧ ApiRequest.imageDelete "builder-vm" ≠ ApiRequest.imageDelete "dest-image" := by
  exact ⟨rfl, rfl, rfl, by decide⟩

/-- C2 counterexample: when the image copy comes back with a non-200 status
(500 here), the run halts with failed set but precopyFailed still false,
contrary to the claim that both flags are recorded on every copy failure. -/
theorem c2_counterexample :
    stepOrkaCreateRun netCopy500 bagStartPre = GoResult.ok outCopy500
    ∧ outCopy500.action = StepAction.actionHalt
    ∧ outCopy500.failed = true ∧ outCopy500.precopyFailed = false := by
  exact ⟨rfl, rfl, rfl, rfl⟩

/-- C2 (amended): with pre-copy enabled and noCreateImage unset, a copy
transport error halts the run with failed and precopyFailed both set,
while a non-200 copy response halts the run with failed set and
precopyFailed left false. -/
theorem c2_copy_failure_flags (net : Net) (cfg : Config) (state : StateBag)
    (r : HttpResponse) (hcfg : state.config = some cfg)
    (hpre : cfg.ImagePrecopy = true) (hnci : cfg.NoCreateImage = false)
    (hlogin : net (ApiRequest.tokenLogin cfg.OrkaUser cfg.OrkaPassword)
      = Except.ok r) :
    (∀ e, net (ApiRequest.imageCopy cfg.SourceImage cfg.ImageName)
        = Except.error e →
      stepOrkaCreateRun net state = GoResult.ok
        { action := StepAction.actionHalt,
          bag := { state with
                   token := some r.token,
                   error := some (ErrEvent.requestError e) },
          failed := true, precopyFailed := true,
          requests := [ApiRequest.tokenLogin cfg.OrkaUser cfg.OrkaPassword,
            ApiRequest.imageCopy cfg.SourceImage cfg.ImageName],
          errors := [ErrEvent.requestError e] })
    ∧ (∀ resp, net (ApiRequest.imageCopy cfg.SourceImage cfg.ImageName)
        = Except.ok resp → resp.status ≠ 200 →
      stepOrkaCreateRun net state = GoResult.ok
        { action := StepAction.actionHalt,
          bag := { state with
                   token := some r.token,
                   error := some (ErrEvent.copyApiError resp.status) },
          failed := true, precopyFailed := false,
          requests := [ApiRequest.tokenLogin cfg.OrkaUser cfg.OrkaPassword,
            ApiRequest.imageCopy cfg.SourceImage cfg.ImageName],
          errors := [ErrEvent.copyApiError resp.status] }) := by
  constructor
  · intro e h2
    simp only [stepOrkaCreateRun, hcfg, createOrkaToken, hlogin]
    rw [if_pos ⟨hpre, by simp [hnci]⟩]
    simp only [h2]
  · intro resp h2 h3
    simp only [stepOrkaCreateRun, hcfg, createOrkaToken, hlogin]
    rw [if_pos ⟨hpre, by simp [hnci]⟩]
    simp only [h2]
    rw [if_pos h3]

/-- C2 witness: the amended claim evaluated on concrete runs, one with a
copy transport error and one with a 500 copy response. -/
theorem c2_copy_failure_flags_witness :
    stepOrkaCreateRun netCopyDown bagStartPre = GoResult.ok outCopyDown
    ∧ stepOrkaCreateRun netCopy500 bagStartPre = GoResult.ok outCopy500 := by
  constructor
  · exact (c2_copy_failure_flags netCopyDown cfgPre bagStartPre
      { status := 200, token := "tok" } rfl rfl rfl rfl).1 "connection refused" rfl
  · exact (c2_copy_failure_flags netCopy500 cfgPre bagStartPre
      { status := 200, token := "tok" } rfl rfl rfl rfl).2 { status := 500 } rfl
      (by decide)

/-- C3: on the success path (failed false, deletion enabled), a purge
transport error is reported to the error sink but cleanup then panics
(nil response dereference) instead of returning normally as the claim
states. -/
theorem c3_purge_transport_error_panics :
    stepOrkaCreateCleanup netPurgeDown false bagTok =
      GoResult.panicked [ApiRequest.vmPurge "builder-vm"]
        [ErrEvent.requestError "connection refused"] := by
  rfl

/-- C4: a deploy transport error is never checked, so the step panics on
the nil response with no RequestError reported and no normal halt,
contrary to the claim. -/
theorem c4_deploy_transport_error_panics :
    stepOrkaCreateRun netDeployDown bagStart =
      GoResult.panicked
        [ApiRequest.tokenLogin "user" "pw",
         ApiRequest.vmCreate "builder-vm" "src.img" "builder-vm" 3 3,
         ApiRequest.vmDeploy "builder-vm"] [] := by
  rfl

/-- C5 counterexample: a login response with status 500 does not halt the
run — the status is never inspected, the best-effort token is stored and
the run continues to a successful deploy with failed still false. -/
theorem c5_counterexample :
    stepOrkaCreateRun netLogin500 bagStart = GoResult.ok outLogin500
    ∧ outLogin500.action = StepAction.actionContinue
    ∧ outLogin500.failed = false := by
  exact ⟨rfl, rfl, rfl⟩

/-- C5 (amended): the Authenticate phase performs exactly one login call;
a transport error records the error, marks failed and halts; otherwise the
token parsed best-effort from the body is stored and the run proceeds to
the next phase regardless of the response status, which is never
inspected. -/
theorem c5_login_single_call_status_ignored (net : Net) (cfg : Config)
    (state : StateBag) (hcfg : state.config = some cfg) :
    (∀ e, net (ApiRequest.tokenLogin cfg.OrkaUser cfg.OrkaPassword) = Except.error e →
       stepOrkaCreateRun net state = GoResult.ok
         { action := StepAction.actionHalt,
           bag := { state with error := some (ErrEvent.requestError e) },
           failed := true, precopyFailed := false,
           requests := [ApiRequest.tokenLogin cfg.OrkaUser cfg.OrkaPassword],
           errors := [ErrEvent.requestError e] })
    ∧ (∀ r, net (ApiRequest.tokenLogin cfg.OrkaUser cfg.OrkaPassword) = Except.ok r →
       ∃ tail, runRequests (stepOrkaCreateRun net state)
             = ApiRequest.tokenLogin cfg.OrkaUser cfg.OrkaPassword :: tail ∧
           tail ≠ [] ∧ (∀ u p, ApiRequest.tokenLogin u p ∉ tail) ∧
           ∀ out, stepOrkaCreateRun net state = GoResult.ok out →
             out.bag.token = some r.token) := by
  constructor
  · intro e h1
    simp only [stepOrkaCreateRun, hcfg, createOrkaToken, h1]
  · intro r h1
    simp only [stepOrkaCreateRun, hcfg, createOrkaToken, h1]
    by_cases hp : (cfg.ImagePrecopy = true ∧ ¬ cfg.NoCreateImage = true)
    · rw [if_pos hp]
      cases h2 : net (ApiRequest.imageCopy cfg.SourceImage cfg.ImageName) with
      | error e =>
          refine ⟨[ApiRequest.imageCopy cfg.SourceImage cfg.ImageName], rfl,
            by simp, ?_, ?_⟩
          · intro u p
            simp
          · intro out hout
            cases hout
            rfl
      | ok cresp =>
          simp only []
          by_cases h3 : cresp.status = 200
          · rw [if_neg (by simp [h3])]
            obtain ⟨tail0, ht, hne, hnl⟩ := runCreateDeploy_requests net cfg
              { state with config := some cfg, token := some r.token }
              cfg.ImageName [ApiRequest.tokenLogin cfg.OrkaUser cfg.OrkaPassword,
                ApiRequest.imageCopy cfg.SourceImage cfg.ImageName]
            refine ⟨ApiRequest.imageCopy cfg.SourceImage cfg.ImageName :: tail0,
              ?_, by simp, ?_, ?_⟩
            · rw [ht]
              simp
            · intro u p
              simp only [List.mem_cons]
              rintro (hc | hc)
              · cases hc
              · exact hnl u p hc
            · intro out hout
              have := runCreateDeploy_ok net cfg
                { state with config := some cfg, token := some r.token }
                cfg.ImageName _ out hout
              exact this.2.1
          · rw [if_pos (by simpa using h3)]
            refine ⟨[ApiRequest.imageCopy cfg.SourceImage cfg.ImageName], rfl,
              by simp, ?_, ?_⟩
            · intro u p
              simp
            · intro out hout
              cases hout
              rfl
    · rw [if_neg hp]
      obtain ⟨tail0, ht, hne, hnl⟩ := runCreateDeploy_requests net cfg
        { state with config := some cfg, token := some r.token }
        cfg.SourceImage [ApiRequest.tokenLogin cfg.OrkaUser cfg.OrkaPassword]
      refine ⟨tail0, by simpa using ht, hne, hnl, ?_⟩
      intro out hout
      have := runCreateDeploy_ok net cfg
        { state with config := some cfg, token := some r.token }
        cfg.SourceImage _ out hout
      exact this.2.1

/-- C5 witness: the transport-error half of the amended claim evaluated on
a concrete run where every call fails at the transport level. -/
theorem c5_login_single_call_status_ignored_witness :
    stepOrkaCreateRun netDown bagStart = GoResult.ok outLoginDown := by
  exact (c5_login_single_call_status_ignored netDown cfgBase bagStart rfl).1
    "connection refused" rfl

/-- C6 counterexample: a deploy response of 200 with an empty body makes
the step succeed while storing an empty vmid, so non-emptiness of vmId is
not equivalent to deploy success. -/
theorem c6_counterexample :
    stepOrkaCreateRun netDeployEmpty bagStart = GoResult.ok outDeployEmpty
    ∧ outDeployEmpty.action = StepAction.actionContinue
    ∧ outDeployEmpty.bag.vmid = some "" := by
  exact ⟨rfl, rfl, rfl⟩

/-- C6 (amended): vmid is written exactly when deploy returns status 200,
holding whatever vmId string the body carried (possibly empty); a halt
leaves vmid untouched; the success-path cleanup of the Create and Deploy
step purges by the configured builder VM name without consulting vmid at
all, even when vmid was never stored; and the Create Image step's cleanup
reads vmid (panicking when it was never stored) and issues no deletion
request on any path, whether vmid is empty or not. -/
theorem c6_vmid_stored_on_deploy_only (cfg : Config) (state : StateBag)
    (net : Net) :
    (∀ out, state.config = some cfg →
      stepOrkaCreateRun net state = GoResult.ok out →
      (out.action = StepAction.actionHalt → out.bag.vmid = state.vmid) ∧
      (out.action = StepAction.actionContinue →
        ∀ resp, net (ApiRequest.vmDeploy cfg.OrkaVMBuilderName)
            = Except.ok resp →
          out.bag.vmid = some resp.vmId ∧ resp.status = 200))
    ∧ (∀ tok, state.config = some cfg → state.token = some tok →
        cfg.NoDeleteVM = false → state.vmid = none →
        cleanupRequests (stepOrkaCreateCleanup net false state)
          = [ApiRequest.vmPurge cfg.OrkaVMBuilderName])
    ∧ (∀ cancelled halted v, state.vmid = some v →
        stepCreateImageCleanup state cancelled halted
          = GoResult.ok { requests := [], errors := [], bag := state })
    ∧ (∀ cancelled halted, state.vmid = none →
        stepCreateImageCleanup state cancelled halted
          = GoResult.panicked [] []) := by
  refine ⟨?_, ?_, ?_, ?_⟩
  · intro out hcfg hrun
    obtain ⟨-, hhalt, hcont⟩ := stepOrkaCreateRun_ok net cfg state out hcfg hrun
    exact ⟨hhalt, fun ha resp hr =>
      ⟨(hcont ha resp hr).1, (hcont ha resp hr).2.2.2⟩⟩
  · intro tok hcfg htok hndv hvm
    simp only [stepOrkaCreateCleanup, hcfg, htok, hndv]
    cases hpu : net (ApiRequest.vmPurge cfg.OrkaVMBuilderName) with
    | error e => simp [cleanupRequests]
    | ok resp =>
        by_cases hs : resp.status = 200
        · simp [hs, cleanupRequests]
        · simp [hs, cleanupRequests]
  · intro cancelled halted v hvm
    simp only [stepCreateImageCleanup, hvm]
    by_cases hv : v = ""
    · rw [if_pos hv]
    · rw [if_neg hv]
      by_cases hch : ¬ cancelled ∧ ¬ halted
      · rw [if_pos hch]
      · rw [if_neg hch]
  · intro cancelled halted hvm
    simp only [stepCreateImageCleanup, hvm]

/-- C6 witness: the amended claim evaluated on the fully successful run,
on a success-path cleanup whose bag has no vmid entry, and on Create
Image cleanups with an empty vmid, a non-empty vmid and a missing vmid. -/
theorem c6_vmid_stored_on_deploy_only_witness :
    (outHappy.bag.vmid = some "vm-1" ∧
      ({ status := 200, vmId := "vm-1", ip := "10.0.0.5",
         sshPort := "2222" } : HttpResponse).status = 200)
    ∧ cleanupRequests (stepOrkaCreateCleanup netAll200 false bagTok)
        = [ApiRequest.vmPurge "builder-vm"]
    ∧ stepCreateImageCleanup outDeployEmpty.bag false false
        = GoResult.ok { requests := [], errors := [], bag := outDeployEmpty.bag }
    ∧ stepCreateImageCleanup bagImg false true
        = GoResult.ok { requests := [], errors := [], bag := bagImg }
    ∧ stepCreateImageCleanup bagTok false true = GoResult.panicked [] [] := by
  refine ⟨?_, ?_, ?_, ?_, ?_⟩
  · exact ((c6_vmid_stored_on_deploy_only cfgBase bagStart netHappy).1
      outHappy rfl rfl).2 rfl
      { status := 200, vmId := "vm-1", ip := "10.0.0.5", sshPort := "2222" } rfl
  · exact (c6_vmid_stored_on_deploy_only cfgBase bagTok netAll200).2.1
      "tok" rfl rfl rfl rfl
  · exact (c6_vmid_stored_on_deploy_only cfgBase outDeployEmpty.bag
      netAll200).2.2.1 false false "" rfl
  · exact (c6_vmid_stored_on_deploy_only cfgBase bagImg netAll200).2.2.1
      false true "vm-1" rfl
  · exact (c6_vmid_stored_on_deploy_only cfgBase bagTok netAll200).2.2.2
      false true rfl

/-- C7: in the Create Image step, a non-200 save response reports a
ResponseError and halts, while a non-200 commit response reports a commit
error and the step still continues. -/
theorem c7_save_halts_commit_continues (net : Net) (cfg : Config)
    (state : StateBag) (vmid tok : String) (resp : HttpResponse)
    (hcfg : state.config = some cfg) (hvm : state.vmid = some vmid)
    (htok : state.token = some tok) (hnci : cfg.NoCreateImage = false)
    (hst : resp.status ≠ 200) :
    (cfg.ImagePrecopy = false →
      net (ApiRequest.imageSave vmid cfg.ImageName) = Except.ok resp →
      stepCreateImageRun net state = GoResult.ok
        { action := StepAction.actionHalt,
          requests := [ApiRequest.imageSave vmid cfg.ImageName],
          errors := [ErrEvent.responseError resp.status] })
    ∧ (cfg.ImagePrecopy = true →
      net (ApiRequest.imageCommit vmid) = Except.ok resp →
      stepCreateImageRun net state = GoResult.ok
        { action := StepAction.actionContinue,
          requests := [ApiRequest.imageCommit vmid],
          errors := [ErrEvent.commitError resp.status] }) := by
  constructor
  · intro hpre hnet
    simp only [stepCreateImageRun, hcfg, hvm, htok, hnci, hpre, hnet]
    rw [if_pos hst]
    simp
  · intro hpre hnet
    simp only [stepCreateImageRun, hcfg, hvm, htok, hnci, hpre, hnet]
    rw [if_pos hst]
    simp

/-- C7 witness: the save and commit branches evaluated on concrete runs
where the call returns status 500. -/
theorem c7_save_halts_commit_continues_witness :
    stepCreateImageRun net500 bagImg = GoResult.ok
      { action := StepAction.actionHalt,
        requests := [ApiRequest.imageSave "vm-1" "dest-image"],
        errors := [ErrEvent.responseError 500] }
    ∧ stepCreateImageRun net500 bagImgPre = GoResult.ok
      { action := StepAction.actionContinue,
        requests := [ApiRequest.imageCommit "vm-1"],
        errors := [ErrEvent.commitError 500] } := by
  constructor
  · exact (c7_save_halts_commit_continues net500 cfgBase bagImg "vm-1" "tok"
      { status := 500 } rfl rfl rfl rfl (by decide)).1 rfl rfl
  · exact (c7_save_halts_commit_continues net500 cfgPre bagImgPre "vm-1" "tok"
      { status := 500 } rfl rfl rfl rfl (by decide)).2 rfl rfl

/-- C8: whenever the Create and Deploy step continues and the deploy
response carried vmId vm-1, ip 10.0.0.5 and sshPort 2222, the resulting
bag holds ssh host 10.0.0.5, numeric ssh port 2222 and vmid vm-1. -/
theorem c8_deploy_roundtrip (net : Net) (cfg : Config) (state : StateBag)
    (out : RunOut) (resp : HttpResponse)
    (hcfg : state.config = some cfg)
    (hrun : stepOrkaCreateRun net state = GoResult.ok out)
    (hact : out.action = StepAction.actionContinue)
    (hdep : net (ApiRequest.vmDeploy cfg.OrkaVMBuilderName) = Except.ok resp)
    (hvm : resp.vmId = "vm-1") (hip : resp.ip = "10.0.0.5")
    (hp : resp.sshPort = "2222") :
    out.bag.ssh_host = some "10.0.0.5" ∧
    out.bag.ssh_port = some (2222 : Int) ∧
    out.bag.vmid = some "vm-1" := by
  obtain ⟨-, -, hcont⟩ := stepOrkaCreateRun_ok net cfg state out hcfg hrun
  obtain ⟨h1, h2, h3, -⟩ := hcont hact resp hdep
  refine ⟨by rw [h2, hip], ?_, by rw [h1, hvm]⟩
  rw [h3, hp]
  decide

/-- C8 witness: the round-trip evaluated on the fully successful concrete
run. -/
theorem c8_deploy_roundtrip_witness :
    outHappy.bag.ssh_host = some "10.0.0.5" ∧
    outHappy.bag.ssh_port = some (2222 : Int) ∧
    outHappy.bag.vmid = some "vm-1" := by
  exact c8_deploy_roundtrip netHappy cfgBase bagStart outHappy
    { status := 200, vmId := "vm-1", ip := "10.0.0.5", sshPort := "2222" }
    rfl rfl rfl rfl rfl rfl rfl

/-- C9: with noDeleteVM set, cleanup of the Create and Deploy step issues
no HTTP requests at all, whatever the failed flag. -/
theorem c9_no_delete_vm_no_requests (net : Net) (failed : Bool)
    (state : StateBag) (cfg : Config)
    (hcfg : state.config = some cfg) (hndv : cfg.NoDeleteVM = true) :
    cleanupRequests (stepOrkaCreateCleanup net failed state) = [] := by
  simp only [stepOrkaCreateCleanup, hcfg, hndv]
  cases htok : state.token with
  | none => rfl
  | some tok => simp [cleanupRequests]

/-- C9 witness: cleanup with deletion disabled on a concrete failed run. -/
theorem c9_no_delete_vm_no_requests_witness :
    cleanupRequests (stepOrkaCreateCleanup netAll200 true bagNDV) = [] := by
  exact c9_no_delete_vm_no_requests netAll200 true bagNDV cfgNDV rfl rfl

/-- C10: when no token was ever stored (login failed), invoking cleanup
of the Create and Deploy step panics on the unchecked token type
assertion before any branch runs, even with noDeleteVM set. -/
theorem c10_cleanup_missing_token_panics (net : Net) (failed : Bool)
    (state : StateBag) (htok : state.token = none) :
    stepOrkaCreateCleanup net failed state = GoResult.panicked [] [] := by
  simp only [stepOrkaCreateCleanup, htok]
  cases hc : state.config with
  | none => rfl
  | some cfg => rfl

/-- C10 witness: cleanup with no stored token and noDeleteVM set panics
before issuing any request. -/
theorem c10_cleanup_missing_token_panics_witness :
    stepOrkaCreateCleanup netAll200 false bagNDVnoTok
      = GoResult.panicked [] [] := by
  exact c10_cleanup_missing_token_panics netAll200 false bagNDVnoTok rfl

end Orka
